import Mathlib

/-
Verification development for the sapowernetworks-exporter repository.

Shallow embedding of the two core modules:
* `src/nem12_parser.py` — the NEM12 interval-record decoder (namespace `NEM12`);
* `src/scraper.py`      — the portal scraper: retry policy, JS-redirect
  follower, remoting client and download flow (namespace `Scraper`).

Python floats are modelled as `ℚ`, Python ints as `ℤ` (or `ℕ` where the
source value is a count), fallible code as `Except`. Network effects are
modelled by explicit oracles (`ℕ → Request → Except String HttpResponse`);
each scraper operation additionally returns the list of HTTP requests it
issued, so that "this call is (not) retried" is observable.
-/

namespace NEM12

/-- Error type of the decoder. `parseError` models `NEM12ParseError` raised by
`parse_nem12`; `valueError` models the Python `ValueError` raised by
`IntervalReading.__post_init__` validation (a distinct exception type). -/
inductive ParseErr where
  | parseError (msg : String)
  | valueError (msg : String)
deriving DecidableEq

/-- Embeds the `IntervalReading` dataclass (nem12_parser.py lines 20-40).
`interval` is `ℤ` because Python ints are unbounded and the validator
checks `0 <= interval <= 287`; `value` is `ℚ` modelling the Python float. -/
structure IntervalReading where
  date : String
  interval : ℤ
  value : ℚ
  quality : String
deriving DecidableEq

/-- Allowed quality flags, from `IntervalReading.__post_init__`:
`('A', 'V', 'E', 'S', 'N', 'F')`. -/
def qualityFlags : List String := ["A", "V", "E", "S", "N", "F"]

/-- Embeds `IntervalReading.__post_init__` (lines 35-40): constructing a
reading validates the interval bounds and the quality flag, raising
`ValueError` otherwise. -/
def mkIntervalReading (date : String) (interval : ℤ) (value : ℚ) (quality : String) :
    Except ParseErr IntervalReading :=
  if ¬ (0 ≤ interval ∧ interval ≤ 287) then
    .error (.valueError ("Interval must be 0-287, got " ++ toString interval))
  else if quality ∉ qualityFlags then
    .error (.valueError ("Unknown quality flag: " ++ quality))
  else
    .ok ⟨date, interval, value, quality⟩

/-- Embeds the `NEM12Data` dataclass (lines 43-58). -/
structure NEM12Data where
  nmi : String
  readings : List IntervalReading
  meter_serial : Option String
  unit : String
  interval_length : ℤ
deriving DecidableEq

/-- Numeric value of a digit string, most significant digit first. -/
def digitsVal (cs : List Char) : ℕ :=
  cs.foldl (fun a c => a * 10 + (c.toNat - 48)) 0

/-- Parses a nonempty all-digit character list to a natural number. -/
def parseNatDigits (cs : List Char) : Option ℕ :=
  if cs ≠ [] ∧ cs.all Char.isDigit then some (digitsVal cs) else none

/-- Embeds Python `int(s)` on plain decimal integer literals with an optional
sign (the only shapes field 8 of a `200` record can take); any other string
is a parse failure (`ValueError`), modelled as `none`. -/
def parseInt (s : String) : Option ℤ :=
  match s.toList with
  | '-' :: rest => (parseNatDigits rest).map (fun n => -(n : ℤ))
  | '+' :: rest => (parseNatDigits rest).map (fun n => (n : ℤ))
  | cs => (parseNatDigits cs).map (fun n => (n : ℤ))

/-- Embeds Python `float(s)` on plain decimal literals (optional sign, digits,
optional decimal point) — the shapes NEM12 value fields take; any other
string is a parse failure, modelled as `none`. -/
def parseDecimal (s : String) : Option ℚ :=
  let core : List Char → Option ℚ := fun cs =>
    match List.splitOn '.' cs with
    | [ip] => (parseNatDigits ip).map (fun n => (n : ℚ))
    | [ip, fp] =>
      if ip = [] ∧ fp = [] then none
      else if ip.all Char.isDigit ∧ fp.all Char.isDigit then
        some ((digitsVal ip : ℚ) + (digitsVal fp : ℚ) / (10 : ℚ) ^ fp.length)
      else none
    | _ => none
  match s.toList with
  | '-' :: rest => (core rest).map (fun q => -q)
  | '+' :: rest => core rest
  | cs => core cs

/-- Embeds `float(value_str) if value_str else 0.0` (line 142): an empty
value field decodes to `0.0` without parsing. -/
def parseValue (s : String) : Option ℚ :=
  if s = "" then some 0 else parseDecimal s

/-- Embeds the date validation `len(date) == 8 and date.isdigit()`
(line 130, negated there). -/
def validDate (d : String) : Bool :=
  d.length = 8 && d.toList.all Char.isDigit

/-- Loop state of `parse_nem12` (lines 88-92): the identifier variables and
the accumulated readings. -/
structure PState where
  nmi : Option String
  meter_serial : Option String
  unit : String
  interval_length : ℤ
  readings : List IntervalReading
deriving DecidableEq

/-- Initial loop state: `nmi = None`, `meter_serial = None`, `unit = "KWH"`,
`interval_length = 5`, `readings = []`. -/
def initState : PState := ⟨none, none, "KWH", 5, []⟩

/-- Embeds lines 115-119: `int(fields[8]) if fields[8] else 5`, with the
`ValueError` handler defaulting to 5. -/
def parseIntervalLength (f8 : String) : ℤ :=
  if f8 = "" then 5
  else
    match parseInt f8 with
    | some n => n
    | none => 5

/-- Embeds the `200` record branch (lines 105-119). Note each `200` record
unconditionally overwrites the identifier state. -/
def process200 (lineNum : ℕ) (fields : List String) (s : PState) : Except ParseErr PState :=
  if fields.length < 9 then
    .error (.parseError ("Line " ++ toString lineNum ++
      ": Invalid 200 record, expected at least 9 fields"))
  else
    .ok { s with
      nmi := some (fields.getD 1 ""),
      meter_serial := if fields.getD 6 "" = "" then none else some (fields.getD 6 ""),
      unit := if fields.getD 7 "" = "" then "KWH" else fields.getD 7 "",
      interval_length := parseIntervalLength (fields.getD 8 "") }

/-- Embeds the per-value loop of the `300` branch (lines 140-152): parse each
value string (`NEM12ParseError` on failure), then construct the validated
reading (which can raise `ValueError`), accumulating in order. -/
def buildReadings (lineNum : ℕ) (date quality : String) :
    List String → ℕ → Except ParseErr (List IntervalReading)
  | [], _ => .ok []
  | v :: rest, i =>
    match parseValue v with
    | none =>
      .error (.parseError ("Line " ++ toString lineNum ++
        ": Invalid interval value at position " ++ toString i ++ ": " ++ v))
    | some val =>
      match mkIntervalReading date (i : ℤ) val quality with
      | .error e => .error e
      | .ok r =>
        match buildReadings lineNum date quality rest (i + 1) with
        | .error e => .error e
        | .ok rs => .ok (r :: rs)

/-- Embeds the `300` record branch (lines 121-152): field-count check, date
check, values `fields[2:290]`, quality `fields[290] if len(fields) > 290
else 'A'`, then the per-value loop appending to the accumulated readings. -/
def process300 (lineNum : ℕ) (fields : List String) (s : PState) : Except ParseErr PState :=
  if fields.length < 291 then
    .error (.parseError ("Line " ++ toString lineNum ++
      ": Invalid 300 record, expected at least 291 fields, got " ++ toString fields.length))
  else
    let date := fields.getD 1 ""
    if ¬ validDate date then
      .error (.parseError ("Line " ++ toString lineNum ++ ": Invalid date format: " ++ date))
    else
      let interval_values := (fields.drop 2).take 288
      let quality := if 290 < fields.length then fields.getD 290 "" else "A"
      match buildReadings lineNum date quality interval_values 0 with
      | .error e => .error e
      | .ok rs => .ok { s with readings := s.readings ++ rs }

/-- Embeds the record-type dispatch (lines 102-161): `200` and `300` are
processed; `400`, `100`, `500`, `900` and any unknown record type are
ignored. -/
def processLine (lineNum : ℕ) (fields : List String) (s : PState) : Except ParseErr PState :=
  let record_type := fields.headD ""
  if record_type = "200" then process200 lineNum fields s
  else if record_type = "300" then process300 lineNum fields s
  else .ok s

/-- The record loop of `parse_nem12` (lines 96-161) over already-split lines,
threading the state; any raised error aborts the whole decode. -/
def parseFold (lineNum : ℕ) (s : PState) : List (List String) → Except ParseErr PState
  | [] => .ok s
  | l :: rest =>
    match processLine lineNum l s with
    | .error e => .error e
    | .ok s2 => parseFold (lineNum + 1) s2 rest

/-- Decoder over a payload given as a list of comma-split records: the record
loop followed by the final missing-identity check (lines 163-172). -/
def parse_nem12_records (lines : List (List String)) : Except ParseErr NEM12Data :=
  match parseFold 1 initState lines with
  | .error e => .error e
  | .ok s =>
    match s.nmi with
    | none => .error (.parseError "No 200 record found - missing NMI")
    | some n => .ok ⟨n, s.readings, s.meter_serial, s.unit, s.interval_length⟩

/-- Line loop of `parse_nem12` on the raw string: strip each line, skip blank
lines, split the rest on commas (lines 94-102). -/
def parseLinesFold (lineNum : ℕ) (s : PState) : List String → Except ParseErr PState
  | [] => .ok s
  | l :: rest =>
    let l2 := l.trim
    if l2 = "" then parseLinesFold (lineNum + 1) s rest
    else
      match processLine lineNum (l2.splitOn ",") s with
      | .error e => .error e
      | .ok s2 => parseLinesFold (lineNum + 1) s2 rest

/-- Embeds `parse_nem12` (lines 66-172) on the raw CSV string: empty-content
check, split into lines, record loop, missing-identity check. -/
def parse_nem12 (csv : String) : Except ParseErr NEM12Data :=
  if csv.trim = "" then .error (.parseError "Empty CSV content")
  else
    match parseLinesFold 1 initState (csv.trim.splitOn "\n") with
    | .error e => .error e
    | .ok s =>
      match s.nmi with
      | none => .error (.parseError "No 200 record found - missing NMI")
      | some n => .ok ⟨n, s.readings, s.meter_serial, s.unit, s.interval_length⟩

/-- Embeds `get_daily_total` (lines 175-189): sum of the values of the
readings whose date matches. -/
def get_daily_total (readings : List IntervalReading) (date : String) : ℚ :=
  ((readings.filter (fun r => r.date = date)).map (fun r => r.value)).sum

/-- Embeds the Python format `f"{n:02d}"` for a non-negative int: zero-padded
to at least two digits. -/
def fmt02 (n : ℕ) : String :=
  if n < 10 then "0" ++ toString n else toString n

/-- Embeds `interval_to_time` (lines 240-260). -/
def interval_to_time (interval : ℕ) : String :=
  let minutes := interval * 5
  let hours := minutes / 60
  let mins := minutes % 60
  fmt02 hours ++ ":" ++ fmt02 mins

/-- Character of a decimal digit. -/
def digitChar (n : ℕ) : Char := Char.ofNat (48 + n)

/-- Spec-side description of an `"HH:MM"` clock string for a given number of
minutes after midnight: two zero-padded digit pairs joined by a colon. Stated
from the spec's words, to be compared with `interval_to_time`. -/
def clockStringSpec (totalMinutes : ℕ) : String :=
  String.mk [digitChar (totalMinutes / 60 / 10), digitChar (totalMinutes / 60 % 10), ':',
    digitChar (totalMinutes % 60 / 10), digitChar (totalMinutes % 60 % 10)]

/-- Well-formedness of a `300` record: enough fields, valid date, every value
field parseable, in-range quality flag. A record satisfying this is processed
without error. -/
def good300 (fields : List String) : Bool :=
  decide (291 ≤ fields.length) && validDate (fields.getD 1 "") &&
    ((fields.drop 2).take 288).all (fun v => (parseValue v).isSome) &&
    decide (fields.getD 290 "" ∈ qualityFlags)

end NEM12

namespace Scraper

/-- Embeds `SAPNScraper.BASE_URL`. -/
def BASE_URL : String := "https://customer.portal.sapowernetworks.com.au"

/-- Embeds `SAPNScraper.LOGIN_URL`. -/
def LOGIN_URL : String := BASE_URL ++ "/meterdata/CADSiteLogin"

/-- Embeds `SAPNScraper.DATA_URL`. -/
def DATA_URL : String := BASE_URL ++ "/meterdata/CADRequestMeterData"

/-- Embeds `SAPNScraper.REMOTING_URL`. -/
def REMOTING_URL : String := BASE_URL ++ "/meterdata/apexremote"

/-- Embeds `SAPNScraper.MAX_RETRIES = 3`. -/
def MAX_RETRIES : ℕ := 3

/-- Embeds `SAPNScraper.RETRY_DELAY = 2` (seconds). -/
def RETRY_DELAY : ℕ := 2

/-- Embeds the `_remoting_context` dict built in `_extract_remoting_context`
(scraper.py lines 189-195). -/
structure RemotingContext where
  vid : String
  ns : String
  ver : ℤ
  csrf : String
  authorization : String
deriving DecidableEq

/-- The RPC envelope built by `_call_download_remoting` (lines 391-406): the
`data` array `[nmi, "", from, to, reportType, meterType, jobId]` flattened
into named fields. -/
structure RemotingPayload where
  action : String
  method : String
  dataNmi : String
  dataCompany : String
  dataStart : String
  dataEnd : String
  dataReportType : String
  dataMeterType : String
  dataJobId : ℤ
  rpcType : String
  tid : ℤ
  ctx : RemotingContext
deriving DecidableEq

/-- An outbound HTTP request, identified by method, URL and (for the remoting
call) its JSON envelope. -/
structure Request where
  method : String
  url : String
  payload : Option RemotingPayload
deriving DecidableEq

/-- Shape of `result_data["result"]` in the remoting response (lines 435-447):
a dict carrying a `results` string and an advisory stream count, a bare
string, or any other JSON type. -/
inductive DownloadResult where
  | dict (results : String) (numberStreams : Option ℤ)
  | str (s : String)
  | other (typeName : String)
deriving DecidableEq

/-- One element of the JSON array returned by the remoting endpoint
(lines 423-432): `statusCode`, optional `message`, and `result`
(`none` fields model absent JSON keys, read with `.get`). -/
structure RemoteMessage where
  statusCode : Option ℤ
  message : Option String
  result : DownloadResult
deriving DecidableEq

/-- An HTTP response: status code, body text, and the parsed JSON body
(`none` models a body on which `response.json()` raises). -/
structure HttpResponse where
  statusCode : ℤ
  text : String
  jsonBody : Option (List RemoteMessage)
deriving DecidableEq

/-- Error type of the scraper. `retryExhausted` models the bare `SAPNError`
raised by `_retry_request` after all attempts; `netException` a `requests`
exception propagating out of a direct (non-retried) session call;
`downloadWrapped` the `SAPNDownloadError(f"Download failed: ...")` wrapper of
`download_nem12`'s generic handler; `authWrapped` the
`SAPNAuthError(f"Login failed: ...")` wrapper of `login`'s generic handler. -/
inductive ScrapeErr where
  | authError (msg : String)
  | downloadError (msg : String)
  | retryExhausted (last : Option String)
  | netException (msg : String)
  | downloadWrapped (e : ScrapeErr)
  | authWrapped (e : ScrapeErr)
deriving DecidableEq

/-- Embeds `response.raise_for_status()`: a 4xx/5xx status raises an
`HTTPError` (a `requests.RequestException`, hence caught and retried by
`_retry_request`). -/
def raiseForStatus (x : Except String HttpResponse) : Except String HttpResponse :=
  match x with
  | .error e => .error e
  | .ok r =>
    if 400 ≤ r.statusCode ∧ r.statusCode < 600 then
      .error ("HTTPError " ++ toString r.statusCode)
    else .ok r

/-- Embeds the attempt loop of `_retry_request` (lines 214-231) over the list
of remaining attempt indices. `f a` is the outcome of the underlying
`session.request` on attempt `a`. Returns the result, the list of sleep
delays taken (`RETRY_DELAY * 2^(a-1)` seconds before attempt `a > 0`), and
the number of attempts actually made. -/
def retryGo (f : ℕ → Except String HttpResponse) :
    List ℕ → Option String → Except ScrapeErr HttpResponse × List ℕ × ℕ
  | [], last => (.error (.retryExhausted last), [], 0)
  | a :: rest, _last =>
    let pre : List ℕ := if 0 < a then [RETRY_DELAY * 2 ^ (a - 1)] else []
    match raiseForStatus (f a) with
    | .ok r => (.ok r, pre, 1)
    | .error e =>
      let next := retryGo f rest (some e)
      (next.1, pre ++ next.2.1, 1 + next.2.2)

/-- Embeds `_retry_request` (lines 200-231): `for attempt in
range(MAX_RETRIES)` with exponential backoff, surfacing the last underlying
error wrapped in `SAPNError` after exhaustion. -/
def retry_request (f : ℕ → Except String HttpResponse) :
    Except ScrapeErr HttpResponse × List ℕ × ℕ :=
  retryGo f (List.range MAX_RETRIES) none

/-- Embeds the relative-URL handling of `_follow_js_redirects` (lines
146-148): a URL starting with `/` is resolved against `BASE_URL` via
`urljoin`. -/
def resolveRedirect (u : String) : String :=
  if u.startsWith "/" then BASE_URL ++ u else u

/-- Embeds the loop body of `_follow_js_redirects` (lines 125-151), with fuel
equal to the remaining loop iterations. `find` abstracts lines 126-144: the
`"window.location" in response.text` guard plus the three `re.search`
redirect patterns, returning the captured URL of the first match, or `none`
when the guard fails or no pattern matches (both `break`). `get` abstracts
`self.session.get(redirect_url, allow_redirects=True)`. Also returns the
list of resolved URLs followed, in order. -/
def followJsGo (find : String → Option String) (get : String → HttpResponse) :
    ℕ → HttpResponse → HttpResponse × List String
  | 0, r => (r, [])
  | n + 1, r =>
    match find r.text with
    | none => (r, [])
    | some u =>
      let u2 := resolveRedirect u
      let next := followJsGo find get n (get u2)
      (next.1, u2 :: next.2)

/-- Embeds `_follow_js_redirects` (lines 111-153): `max_redirects = 5`. -/
def follow_js_redirects (find : String → Option String) (get : String → HttpResponse)
    (r : HttpResponse) : HttpResponse × List String :=
  followJsGo find get 5 r

/-- Embeds the same `_follow_js_redirects` loop (lines 125-151) against the
indexed network oracle used by the `login` flow, so that the GET issued for
each followed redirect — `self.session.get(redirect_url)` at line 151, a
direct call not routed through `_retry_request` — appears in the request
trace. A failing GET propagates as a `requests` exception. Returns the
result, the requests issued, and the next request index. -/
def followJsGoNet (find : String → Option String)
    (net : ℕ → Request → Except String HttpResponse) :
    ℕ → ℕ → HttpResponse → Except String HttpResponse × List Request × ℕ
  | 0, c, r => (.ok r, [], c)
  | n + 1, c, r =>
    match find r.text with
    | none => (.ok r, [], c)
    | some u =>
      let req : Request := ⟨"GET", resolveRedirect u, none⟩
      match net c req with
      | .error e => (.error e, [req], c + 1)
      | .ok r2 =>
        let next := followJsGoNet find net n (c + 1) r2
        (next.1, req :: next.2.1, next.2.2)

/-- Embeds the exception handling of `login` (lines 303-307): `SAPNAuthError`
re-raised unchanged, any other exception wrapped in
`SAPNAuthError(f"Login failed: {e}")`. -/
def authWrapExc (e : ScrapeErr) : ScrapeErr :=
  match e with
  | .authError m => .authError m
  | .authWrapped i => .authWrapped i
  | e2 => .authWrapped e2

/-- Embeds `login` (lines 233-307): the login-page GET through
`_retry_request`, the form search, the credential POST through
`_retry_request`, the JS-redirect follow-up (direct GETs), and the
verification step — the session-cookie check, else a direct (non-retried)
GET of the data page, failing when it lands back on the login page. On
success the `_authenticated` flag is set. `findFormAction` abstracts the
BeautifulSoup form search of lines 255-261 (`none` = no form; the
`action` default is folded into the abstraction); the form-data dict of
lines 263-269 is not modelled, requests being identified by method and URL;
`hasSidCookie` abstracts the cookie-jar test of line 290 and `isLoginPage`
the `"CADSiteLogin" in url or "loginForm" in text` test of line 296.
Returns the result, the requests issued, and the final `_authenticated`
flag. -/
def login (net : ℕ → Request → Except String HttpResponse)
    (find : String → Option String) (findFormAction : String → Option String)
    (hasSidCookie : Bool) (isLoginPage : HttpResponse → Bool) (nmi : String) :
    Except ScrapeErr Unit × List Request × Bool :=
  let loginReq : Request := ⟨"GET", LOGIN_URL, none⟩
  let t1 := retry_request (fun i => net i loginReq)
  let log1 := List.replicate t1.2.2 loginReq
  match t1.1 with
  | .error e => (.error (authWrapExc e), log1, false)
  | .ok resp1 =>
    match findFormAction resp1.text with
    | none => (.error (.authError "Could not find login form"), log1, false)
    | some action =>
      let postReq : Request := ⟨"POST", action, none⟩
      let t2 := retry_request (fun i => net (t1.2.2 + i) postReq)
      let log2 := log1 ++ List.replicate t2.2.2 postReq
      match t2.1 with
      | .error e => (.error (authWrapExc e), log2, false)
      | .ok resp2 =>
        let f := followJsGoNet find net 5 (t1.2.2 + t2.2.2) resp2
        let log3 := log2 ++ f.2.1
        match f.1 with
        | .error e => (.error (authWrapExc (.netException e)), log3, false)
        | .ok _resp3 =>
          if hasSidCookie then (.ok (), log3, true)
          else
            let testReq : Request := ⟨"GET", DATA_URL ++ "?selNMI=" ++ nmi, none⟩
            match net f.2.2 testReq with
            | .error e => (.error (authWrapExc (.netException e)), log3 ++ [testReq], false)
            | .ok resp4 =>
              if isLoginPage resp4 then
                (.error (.authError "Login failed - redirected back to login page"),
                  log3 ++ [testReq], false)
              else (.ok (), log3 ++ [testReq], true)

/-- Embeds the response handling of `_call_download_remoting` after the POST
(lines 420-447): status check, JSON decode, non-empty array check, element
status check, and the three `result` shapes. -/
def handleRemotingResponse (x : Except String HttpResponse) : Except ScrapeErr String :=
  match x with
  | .error e => .error (.netException e)
  | .ok resp =>
    if resp.statusCode ≠ 200 then
      .error (.downloadError ("Remoting call failed with status " ++ toString resp.statusCode))
    else
      match resp.jsonBody with
      | none => .error (.netException "JSONDecodeError")
      | some [] => .error (.downloadError "Empty response from remoting call")
      | some (rd :: _) =>
        if rd.statusCode ≠ some 200 then
          .error (.downloadError ("Remoting call error: " ++ rd.message.getD "Unknown error"))
        else
          match rd.result with
          | .dict results _ =>
            if results = "" then .error (.downloadError "No results in download response")
            else .ok results
          | .str s2 => .ok s2
          | .other t => .error (.downloadError ("Unexpected result type: " ++ t))

/-- Embeds `_call_download_remoting` (lines 373-447): context guard, envelope
construction, a single direct `session.post` to the remoting endpoint
(line 410 — not routed through `_retry_request`), then response handling.
`net` is the network oracle, `c0` the index of the next outbound request. -/
def call_download_remoting (net : ℕ → Request → Except String HttpResponse) (c0 : ℕ)
    (ctx : Option RemotingContext) (nmi fromS toS : String) :
    Except ScrapeErr String × List Request :=
  match ctx with
  | none => (.error (.downloadError "Remoting context not initialized"), [])
  | some ctxv =>
    let payload : RemotingPayload :=
      ⟨"CADRequestMeterDataController", "downloadNMIData", nmi, "", fromS, toS,
        "Customer Access NEM12", "Interval", 0, "rpc", 1, ctxv⟩
    let req : Request := ⟨"POST", REMOTING_URL, some payload⟩
    (handleRemotingResponse (net c0 req), [req])

/-- Embeds the exception handling of `download_nem12` (lines 367-371):
`SAPNDownloadError` re-raised unchanged, any other exception wrapped in
`SAPNDownloadError(f"Download failed: {e}")`. -/
def downloadWrapExc (e : ScrapeErr) : ScrapeErr :=
  match e with
  | .downloadError m => .downloadError m
  | .downloadWrapped i => .downloadWrapped i
  | e2 => .downloadWrapped e2

/-- Embeds the initial value of `self._authenticated` set in
`SAPNScraper.__init__` (line 77). -/
def initAuthenticated : Bool := false

/-- Embeds `download_nem12` (lines 309-371): authentication guard first, then
the data-page GET through `_retry_request`, context extraction, the remoting
call, and the empty-payload check. `extractCtx` abstracts the regex scanning
of `_extract_remoting_context` (lines 155-198); the date strings are the
already-formatted `toUTCString`-style dates. Returns the result and the
requests issued. -/
def download_nem12 (net : ℕ → Request → Except String HttpResponse)
    (extractCtx : String → Except ScrapeErr RemotingContext)
    (authenticated : Bool) (nmi fromS toS : String) :
    Except ScrapeErr String × List Request :=
  if authenticated = false then
    (.error (.downloadError "Not authenticated - call login() first"), [])
  else
    let dataReq : Request := ⟨"GET", DATA_URL ++ "?selNMI=" ++ nmi, none⟩
    let t := retry_request (fun i => net i dataReq)
    let dataLog := List.replicate t.2.2 dataReq
    match t.1 with
    | .error e => (.error (downloadWrapExc e), dataLog)
    | .ok resp =>
      match extractCtx resp.text with
      | .error e => (.error (downloadWrapExc e), dataLog)
      | .ok ctxv =>
        let c := call_download_remoting net t.2.2 (some ctxv) nmi fromS toS
        match c.1 with
        | .error e => (.error (downloadWrapExc e), dataLog ++ c.2)
        | .ok csv =>
          if csv = "" then
            (.error (.downloadError "No data returned from download"), dataLog ++ c.2)
          else (.ok csv, dataLog ++ c.2)

end Scraper

section ScraperProofs

open Scraper

/-- Helper: `retryGo` consults the attempt oracle only at the listed attempt
indices. -/
theorem retryGo_congr (f g : ℕ → Except String HttpResponse) :
    ∀ (as : List ℕ) (last : Option String), (∀ a ∈ as, f a = g a) →
      retryGo f as last = retryGo g as last := by
  intro as
  induction as with
  | nil => intro last _; rfl
  | cons a rest ih =>
    intro last h
    have ihh : ∀ l, retryGo f rest l = retryGo g rest l :=
      fun l => ih l (fun b hb => h b (List.mem_cons_of_mem a hb))
    simp only [retryGo, h a (List.mem_cons_self a rest), ihh]

/-- Helper: one unfolding of the redirect loop at full fuel. -/
theorem followJsGo_five (find : String → Option String) (get : String → HttpResponse)
    (r : HttpResponse) :
    followJsGo find get 5 r =
      match find r.text with
      | none => (r, [])
      | some u =>
        ((followJsGo find get 4 (get (resolveRedirect u))).1,
          resolveRedirect u :: (followJsGo find get 4 (get (resolveRedirect u))).2) := rfl

/-- Helper: the JS-redirect follower never records more followed URLs than it
has fuel. -/
theorem followJsGo_length_le (find : String → Option String) (get : String → HttpResponse) :
    ∀ (n : ℕ) (r : HttpResponse), (followJsGo find get n r).2.length ≤ n := by
  intro n
  induction n with
  | zero => intro r; simp [followJsGo]
  | succ n ih =>
    intro r
    unfold followJsGo
    cases find r.text with
    | none => simp
    | some u => simpa using Nat.succ_le_succ (ih (get (resolveRedirect u)))

/-- Helper: when every response body yields a redirect, the follower uses all
its fuel. -/
theorem followJsGo_length_eq (find : String → Option String) (get : String → HttpResponse)
    (hall : ∀ t, (find t).isSome = true) :
    ∀ (n : ℕ) (r : HttpResponse), (followJsGo find get n r).2.length = n := by
  intro n
  induction n with
  | zero => intro r; simp [followJsGo]
  | succ n ih =>
    intro r
    unfold followJsGo
    obtain ⟨u, hu⟩ := Option.isSome_iff_exists.mp (hall r.text)
    rw [hu]
    simpa using ih (get (resolveRedirect u))

/-- C6: under the retry policy, a call failing transiently on the first two
attempts and succeeding on the third returns the successful response after
sleeping 2 then 4 seconds and making exactly 3 attempts; a call failing on
all three attempts fails with the `SAPNError` wrapping the last underlying
error after the same sleeps, with exactly 3 attempts; and the outcome never
consults a 4th attempt. -/
theorem C6_retry_policy (f : ℕ → Except String HttpResponse) (r : HttpResponse)
    (e0 e1 e2 : String) :
    (f 0 = .error e0 → f 1 = .error e1 → f 2 = .ok r → r.statusCode = 200 →
      retry_request f = (.ok r, [2, 4], 3)) ∧
    (f 0 = .error e0 → f 1 = .error e1 → f 2 = .error e2 →
      retry_request f = (.error (.retryExhausted (some e2)), [2, 4], 3)) ∧
    (∀ g, (∀ i, i < MAX_RETRIES → f i = g i) → retry_request f = retry_request g) := by
  refine ⟨?_, ?_, ?_⟩
  · intro h0 h1 h2 hr
    simp only [retry_request, show List.range MAX_RETRIES = [0, 1, 2] from rfl, retryGo,
      h0, h1, h2, raiseForStatus, hr]
    norm_num [RETRY_DELAY]
  · intro h0 h1 h2
    simp only [retry_request, show List.range MAX_RETRIES = [0, 1, 2] from rfl, retryGo,
      h0, h1, h2, raiseForStatus]
    norm_num [RETRY_DELAY]
  · intro g hg
    unfold retry_request
    exact retryGo_congr f g (List.range MAX_RETRIES) none
      (fun a ha => hg a (List.mem_range.mp ha))

/-- C6 witness: a concrete oracle failing twice then succeeding. -/
theorem C6_retry_policy_witness :
    retry_request (fun i => if i = 2 then .ok ⟨200, "", none⟩ else .error "timeout") =
      (.ok ⟨200, "", none⟩, [2, 4], 3) :=
  (C6_retry_policy (fun i => if i = 2 then .ok ⟨200, "", none⟩ else .error "timeout")
    ⟨200, "", none⟩ "timeout" "timeout" "timeout").1 rfl rfl rfl rfl

/-- C7: the JS-redirect follower follows at most 5 redirects; it stops
immediately (following nothing) when the response yields no redirect target;
a response that does yield a target is followed to the resolved URL exactly
once, continuing with one unit less fuel; and when every response yields a
target, exactly 5 redirects are followed — a 6th is never followed. -/
theorem C7_js_redirect_guard (find : String → Option String) (get : String → HttpResponse)
    (r : HttpResponse) :
    ((follow_js_redirects find get r).2.length ≤ 5) ∧
    (find r.text = none → follow_js_redirects find get r = (r, [])) ∧
    (∀ u, find r.text = some u →
      follow_js_redirects find get r =
        ((followJsGo find get 4 (get (resolveRedirect u))).1,
          resolveRedirect u :: (followJsGo find get 4 (get (resolveRedirect u))).2)) ∧
    ((∀ t, (find t).isSome = true) → (follow_js_redirects find get r).2.length = 5) := by
  refine ⟨followJsGo_length_le find get 5 r, ?_, ?_, ?_⟩
  · intro h
    show followJsGo find get 5 r = _
    rw [followJsGo_five, h]
  · intro u h
    show followJsGo find get 5 r = _
    rw [followJsGo_five, h]
  · intro hall
    exact followJsGo_length_eq find get hall 5 r

/-- C7 witness: concrete responses with and without a redirect target. -/
theorem C7_js_redirect_guard_witness :
    follow_js_redirects (fun _ => none) (fun _ => ⟨200, "", none⟩) ⟨200, "done", none⟩ =
      (⟨200, "done", none⟩, []) ∧
    (follow_js_redirects (fun _ => some "/next") (fun _ => ⟨200, "loop", none⟩)
        ⟨200, "loop", none⟩).2.length = 5 :=
  ⟨(C7_js_redirect_guard (fun _ => none) (fun _ => ⟨200, "", none⟩)
      ⟨200, "done", none⟩).2.1 rfl,
   (C7_js_redirect_guard (fun _ => some "/next") (fun _ => ⟨200, "loop", none⟩)
      ⟨200, "loop", none⟩).2.2.2 (fun _ => rfl)⟩

/-- C9: the scraper starts unauthenticated, and calling the download
operation with the authenticated flag unset fails immediately with the
`SAPNDownloadError("Not authenticated - call login() first")` and issues no
HTTP request, for every network oracle, context extractor, meter identifier
and date range. -/
theorem C9_download_auth_guard :
    initAuthenticated = false ∧
    ∀ net ec nmi fromS toS, download_nem12 net ec false nmi fromS toS =
      (.error (.downloadError "Not authenticated - call login() first"), []) :=
  ⟨rfl, fun _ _ _ _ _ => rfl⟩

/-- C1 counterexample: the remoting JSON POST is NOT executed under the retry
policy. With a network that always fails transiently and a valid remoting
context, `_call_download_remoting` issues exactly one POST and surfaces the
underlying error directly — it is neither re-attempted nor wrapped in the
retry-exhaustion `SAPNError`. -/
theorem C1_remoting_post_counterexample :
    call_download_remoting (fun _ _ => .error "ConnectionError") 0
        (some ⟨"v", "", 35, "c", "a"⟩) "NMI" "from" "to" =
      (.error (.netException "ConnectionError"),
        [⟨"POST", REMOTING_URL,
          some ⟨"CADRequestMeterDataController", "downloadNMIData", "NMI", "", "from", "to",
            "Customer Access NEM12", "Interval", 0, "rpc", 1, ⟨"v", "", 35, "c", "a"⟩⟩⟩]) ∧
    (∀ last, (call_download_remoting (fun _ _ => .error "ConnectionError") 0
        (some ⟨"v", "", 35, "c", "a"⟩) "NMI" "from" "to").1 ≠
          .error (.retryExhausted last)) :=
  ⟨rfl, fun _ => by simp [call_download_remoting, handleRemotingResponse]⟩

/-- Helper: a first-attempt success returns immediately with one attempt and
no sleeps. -/
theorem retry_request_first_ok (f : ℕ → Except String HttpResponse) (r : HttpResponse)
    (h0 : f 0 = .ok r) (hst : r.statusCode = 200) :
    retry_request f = (.ok r, [], 1) := by
  simp only [retry_request, show List.range MAX_RETRIES = [0, 1, 2] from rfl, retryGo,
    h0, raiseForStatus, hst]
  norm_num

/-- Helper: three transient failures exhaust the retry policy with sleeps of
2 then 4 seconds. -/
theorem retry_request_all_fail (f : ℕ → Except String HttpResponse) (e : String)
    (h : ∀ i, i < MAX_RETRIES → f i = .error e) :
    retry_request f = (.error (.retryExhausted (some e)), [2, 4], 3) := by
  simp only [retry_request, show List.range MAX_RETRIES = [0, 1, 2] from rfl, retryGo,
    h 0 (by decide), h 1 (by decide), h 2 (by decide), raiseForStatus]
  norm_num [RETRY_DELAY]

/-- Helper: the trace-logging redirect follower at full fuel stops at once
when the response yields no redirect. -/
theorem followJsGoNet_none5 (find : String → Option String)
    (net : ℕ → Request → Except String HttpResponse) (c : ℕ) (r : HttpResponse)
    (h : find r.text = none) :
    followJsGoNet find net 5 c r = (.ok r, [], c) := by
  show followJsGoNet find net (4 + 1) c r = (.ok r, [], c)
  simp only [followJsGoNet, h]

/-- C1 (amended): only the page-level calls go through the retry policy.
In order: the remoting client issues at most one HTTP request per invocation
(the direct POST — no retry); the data-page GET of the download flow is
retried — a network failing every attempt makes the flow issue that GET
exactly 3 times and fail with the retry-exhaustion error wrapped in the
generic download failure; the login-page GET is retried the same way; the
login-form POST is retried the same way (after a successful login-page GET);
a JS-redirect GET is issued exactly once, a transient failure surfacing
immediately un-retried; and the login-verification GET is issued exactly
once, a transient failure surfacing immediately as the wrapped `requests`
exception, not the retry-exhaustion error. -/
theorem C1_retry_coverage :
    (∀ net c0 ctx nmi fromS toS,
      ((call_download_remoting net c0 ctx nmi fromS toS).2).length ≤ 1) ∧
    (∀ e ec nmi fromS toS,
      download_nem12 (fun _ _ => .error e) ec true nmi fromS toS =
        (.error (.downloadWrapped (.retryExhausted (some e))),
          List.replicate 3 ⟨"GET", DATA_URL ++ "?selNMI=" ++ nmi, none⟩)) ∧
    (∀ e find ff sid ilp nmi,
      login (fun _ _ => .error e) find ff sid ilp nmi =
        (.error (.authWrapped (.retryExhausted (some e))),
          List.replicate 3 ⟨"GET", LOGIN_URL, none⟩, false)) ∧
    (∀ (net : ℕ → Request → Except String HttpResponse) find ff (sid : Bool) ilp
        (nmi : String) (resp1 : HttpResponse) (action e : String),
      net 0 ⟨"GET", LOGIN_URL, none⟩ = .ok resp1 → resp1.statusCode = 200 →
      ff resp1.text = some action →
      (∀ i, net (1 + i) ⟨"POST", action, none⟩ = .error e) →
      login net find ff sid ilp nmi =
        (.error (.authWrapped (.retryExhausted (some e))),
          ⟨"GET", LOGIN_URL, none⟩ :: List.replicate 3 ⟨"POST", action, none⟩, false)) ∧
    (∀ (find : String → Option String) (net : ℕ → Request → Except String HttpResponse)
        (n c : ℕ) (r : HttpResponse) (u e : String),
      find r.text = some u →
      net c ⟨"GET", resolveRedirect u, none⟩ = .error e →
      followJsGoNet find net (n + 1) c r =
        (.error e, [⟨"GET", resolveRedirect u, none⟩], c + 1)) ∧
    (∀ (net : ℕ → Request → Except String HttpResponse) find ff ilp (nmi : String)
        (resp1 resp2 : HttpResponse) (action e : String),
      net 0 ⟨"GET", LOGIN_URL, none⟩ = .ok resp1 → resp1.statusCode = 200 →
      ff resp1.text = some action →
      net 1 ⟨"POST", action, none⟩ = .ok resp2 → resp2.statusCode = 200 →
      find resp2.text = none →
      net 2 ⟨"GET", DATA_URL ++ "?selNMI=" ++ nmi, none⟩ = .error e →
      login net find ff false ilp nmi =
        (.error (.authWrapped (.netException e)),
          [⟨"GET", LOGIN_URL, none⟩, ⟨"POST", action, none⟩,
            ⟨"GET", DATA_URL ++ "?selNMI=" ++ nmi, none⟩], false)) := by
  refine ⟨?_, ?_, ?_, ?_, ?_, ?_⟩
  · intro net c0 ctx nmi fromS toS
    cases ctx <;> simp [call_download_remoting]
  · intro e ec nmi fromS toS
    rfl
  · intro e find ff sid ilp nmi
    rfl
  · intro net find ff sid ilp nmi resp1 action e h1 hst hff hpost
    have ht1 : retry_request (fun i => net i ⟨"GET", LOGIN_URL, none⟩) = (.ok resp1, [], 1) :=
      retry_request_first_ok _ resp1 h1 hst
    have ht2 : retry_request (fun i => net (1 + i) ⟨"POST", action, none⟩) =
        (.error (.retryExhausted (some e)), [2, 4], 3) :=
      retry_request_all_fail _ e (fun i _ => hpost i)
    simp only [login, ht1, hff, ht2, authWrapExc]
    simp
  · intro find net n c r u e hfind hnet
    simp only [followJsGoNet, hfind, hnet]
  · intro net find ff ilp nmi resp1 resp2 action e h1 hst1 hff h2 hst2 hfind htest
    have ht1 : retry_request (fun i => net i ⟨"GET", LOGIN_URL, none⟩) = (.ok resp1, [], 1) :=
      retry_request_first_ok _ resp1 h1 hst1
    have ht2 : retry_request (fun i => net (1 + i) ⟨"POST", action, none⟩) =
        (.ok resp2, [], 1) :=
      retry_request_first_ok _ resp2 h2 hst2
    have hfol : followJsGoNet find net 5 2 resp2 = (.ok resp2, [], 2) :=
      followJsGoNet_none5 find net 2 resp2 hfind
    simp only [login, ht1, hff, ht2, hfol, authWrapExc, htest]
    simp

/-- C1 witness: concrete oracles exercising the retried login POST, a failing
JS-redirect GET (one request, no retry), and a failing login-verification GET
(one request, no retry). -/
theorem C1_retry_coverage_witness :
    (login (fun _ req => if req.method = "GET" then .ok ⟨200, "page", none⟩
          else .error "timeout")
        (fun _ => none) (fun _ => some "act") true (fun _ => false) "N" =
      (.error (.authWrapped (.retryExhausted (some "timeout"))),
        ⟨"GET", LOGIN_URL, none⟩ :: List.replicate 3 ⟨"POST", "act", none⟩, false)) ∧
    (followJsGoNet (fun _ => some "/next") (fun _ _ => .error "refused") 1 0
        ⟨200, "redir", none⟩ =
      (.error "refused", [⟨"GET", resolveRedirect "/next", none⟩], 1)) ∧
    (login (fun i _ => if i ≤ 1 then .ok ⟨200, "ok", none⟩ else .error "refused")
        (fun _ => none) (fun _ => some "act") false (fun _ => false) "N" =
      (.error (.authWrapped (.netException "refused")),
        [⟨"GET", LOGIN_URL, none⟩, ⟨"POST", "act", none⟩,
          ⟨"GET", DATA_URL ++ "?selNMI=" ++ "N", none⟩], false)) :=
  ⟨C1_retry_coverage.2.2.2.1
      (fun _ req => if req.method = "GET" then .ok ⟨200, "page", none⟩ else .error "timeout")
      (fun _ => none) (fun _ => some "act") true (fun _ => false) "N"
      ⟨200, "page", none⟩ "act" "timeout" rfl rfl rfl (fun _ => rfl),
   C1_retry_coverage.2.2.2.2.1 (fun _ => some "/next") (fun _ _ => .error "refused")
      0 0 ⟨200, "redir", none⟩ "/next" "refused" rfl rfl,
   C1_retry_coverage.2.2.2.2.2
      (fun i _ => if i ≤ 1 then .ok ⟨200, "ok", none⟩ else .error "refused")
      (fun _ => none) (fun _ => some "act") (fun _ => false) "N"
      ⟨200, "ok", none⟩ ⟨200, "ok", none⟩ "act" "refused"
      rfl rfl rfl rfl rfl rfl rfl⟩

end ScraperProofs

section ClockProofs

set_option maxRecDepth 40000 in
/-- C8: for every interval index `i ≤ 287`, `interval_to_time i` is the
`"HH:MM"` clock string whose total minutes are `5 * i`, each component
zero-padded to two digits; in particular index 0 maps to `"00:00"`, index 12
to `"01:00"` and index 287 to `"23:55"`. -/
theorem C8_clock_mapping :
    (∀ i : ℕ, i ≤ 287 → NEM12.interval_to_time i = NEM12.clockStringSpec (5 * i)) ∧
    NEM12.interval_to_time 0 = "00:00" ∧
    NEM12.interval_to_time 12 = "01:00" ∧
    NEM12.interval_to_time 287 = "23:55" :=
  ⟨by decide, by decide, by decide, by decide⟩

/-- C8 witness: the clock mapping evaluated at the boundary index 287. -/
theorem C8_clock_mapping_witness :
    NEM12.interval_to_time 287 = NEM12.clockStringSpec (5 * 287) :=
  C8_clock_mapping.1 287 (by decide)

end ClockProofs

section ParserProofs

open NEM12

/-- Helper: the record loop splits over list append. -/
theorem parseFold_append (xs : List (List String)) :
    ∀ (n : ℕ) (s : PState) (ys : List (List String)),
      parseFold n s (xs ++ ys) =
        match parseFold n s xs with
        | .error e => .error e
        | .ok s2 => parseFold (n + xs.length) s2 ys := by
  induction xs with
  | nil => intro n s ys; simp [parseFold]
  | cons l rest ih =>
    intro n s ys
    simp only [List.cons_append, parseFold]
    cases hx : processLine n l s with
    | error e => rfl
    | ok s2 =>
      show parseFold (n + 1) s2 (rest ++ ys) =
        match parseFold (n + 1) s2 rest with
        | .error e => .error e
        | .ok s3 => parseFold (n + (l :: rest).length) s3 ys
      rw [ih, show n + 1 + rest.length = n + (l :: rest).length from by
        simp only [List.length_cons]; omega]

/-- Helper: a well-formed `200` record sets the identifier state from its
fields and leaves the readings untouched. -/
theorem process200_ok (n : ℕ) (fields : List String) (s : PState)
    (hlen : 9 ≤ fields.length) :
    process200 n fields s = .ok { s with
      nmi := some (fields.getD 1 ""),
      meter_serial := if fields.getD 6 "" = "" then none else some (fields.getD 6 ""),
      unit := if fields.getD 7 "" = "" then "KWH" else fields.getD 7 "",
      interval_length := parseIntervalLength (fields.getD 8 "") } := by
  unfold process200
  rw [if_neg (by omega : ¬ fields.length < 9)]

/-- Helper: a record whose type code is not `"200"` never changes the
identifier state. -/
theorem processLine_ids (n : ℕ) (l : List String) (s s2 : PState)
    (h : l.headD "" ≠ "200") (hp : processLine n l s = .ok s2) :
    s2.nmi = s.nmi ∧ s2.meter_serial = s.meter_serial ∧ s2.unit = s.unit ∧
      s2.interval_length = s.interval_length := by
  unfold processLine at hp
  rw [if_neg h] at hp
  by_cases h3 : l.headD "" = "300"
  · rw [if_pos h3] at hp
    unfold process300 at hp
    by_cases hl : l.length < 291
    · rw [if_pos hl] at hp; cases hp
    · rw [if_neg hl] at hp
      simp only [] at hp
      by_cases hd : ¬ validDate (l.getD 1 "") = true
      · rw [if_pos hd] at hp; cases hp
      · rw [if_neg hd] at hp
        cases hb : buildReadings n (l.getD 1 "")
            (if 290 < l.length then l.getD 290 "" else "A") (List.take 288 (List.drop 2 l)) 0 with
        | error e => rw [hb] at hp; cases hp
        | ok rs => rw [hb] at hp; cases hp; exact ⟨rfl, rfl, rfl, rfl⟩
  · rw [if_neg h3] at hp
    cases hp
    exact ⟨rfl, rfl, rfl, rfl⟩

/-- Helper: a run of records containing no `200` record preserves the
identifier state. -/
theorem parseFold_ids (ys : List (List String)) :
    ∀ (n : ℕ) (s s2 : PState), (∀ l ∈ ys, l.headD "" ≠ "200") →
      parseFold n s ys = .ok s2 →
      s2.nmi = s.nmi ∧ s2.meter_serial = s.meter_serial ∧ s2.unit = s.unit ∧
        s2.interval_length = s.interval_length := by
  induction ys with
  | nil =>
    intro n s s2 _ hp
    cases hp
    exact ⟨rfl, rfl, rfl, rfl⟩
  | cons l rest ih =>
    intro n s s2 hys hp
    simp only [parseFold] at hp
    cases hpl : processLine n l s with
    | error e => rw [hpl] at hp; cases hp
    | ok s3 =>
      rw [hpl] at hp
      obtain ⟨a1, a2, a3, a4⟩ := processLine_ids n l s s3 (hys l (List.mem_cons_self l rest)) hpl
      obtain ⟨b1, b2, b3, b4⟩ := ih (n + 1) s3 s2 (fun x hx => hys x (List.mem_cons_of_mem l hx)) hp
      exact ⟨b1.trans a1, b2.trans a2, b3.trans a3, b4.trans a4⟩

/-- C2 counterexample: a payload with two `200` records decodes to the
identifiers of the SECOND record, not the first — the first occurrence does
not establish the dataset's identifiers. -/
theorem C2_first_200_counterexample :
    parse_nem12_records
        [["200", "NMI1", "E1", "E1", "E1", "", "S1", "KWH", "05"],
         ["200", "NMI2", "E1", "E1", "E1", "", "S2", "WH", "30"]] =
      .ok ⟨"NMI2", [], some "S2", "WH", 30⟩ ∧
    ("NMI2" : String) ≠ "NMI1" :=
  ⟨rfl, by decide⟩

/-- C2 (amended): the LAST `200` record establishes the dataset's
identifiers — each `200` record overwrites the meter identifier, serial,
unit and interval length, so a successful decode carries those of the last
`200` record (here: a well-formed `200` record followed only by non-`200`
records). -/
theorem C2_last_200_wins (xs : List (List String)) (r : List String)
    (ys : List (List String)) (data : NEM12Data)
    (h200 : r.headD "" = "200") (hlen : 9 ≤ r.length)
    (hys : ∀ l ∈ ys, l.headD "" ≠ "200")
    (hp : parse_nem12_records (xs ++ r :: ys) = .ok data) :
    data.nmi = r.getD 1 "" ∧
    data.meter_serial = (if r.getD 6 "" = "" then none else some (r.getD 6 "")) ∧
    data.unit = (if r.getD 7 "" = "" then "KWH" else r.getD 7 "") ∧
    data.interval_length = parseIntervalLength (r.getD 8 "") := by
  unfold parse_nem12_records at hp
  rw [parseFold_append] at hp
  cases h1 : parseFold 1 initState xs with
  | error e => rw [h1] at hp; cases hp
  | ok s0 =>
    rw [h1] at hp
    simp only [parseFold] at hp
    rw [show processLine (1 + xs.length) r s0 = process200 (1 + xs.length) r s0 by
      unfold processLine; rw [if_pos h200]] at hp
    rw [process200_ok (1 + xs.length) r s0 hlen] at hp
    simp only at hp
    cases h2 : parseFold (1 + xs.length + 1) _ ys with
    | error e => rw [h2] at hp; cases hp
    | ok sf =>
      rw [h2] at hp
      obtain ⟨b1, b2, b3, b4⟩ := parseFold_ids ys (1 + xs.length + 1) _ sf hys h2
      simp only at b1 b2 b3 b4
      have hp2 : (match sf.nmi with
          | none => Except.error (ParseErr.parseError "No 200 record found - missing NMI")
          | some nm =>
            Except.ok
              (⟨nm, sf.readings, sf.meter_serial, sf.unit, sf.interval_length⟩ : NEM12Data)) =
          Except.ok data := hp
      rw [b1] at hp2
      cases hp2
      exact ⟨rfl, b2, b3, b4⟩

/-- C2 witness: a single well-formed `200` record establishes its own
identifiers. -/
theorem C2_last_200_wins_witness :
    (⟨"NMI1", [], some "S1", "KWH", 5⟩ : NEM12Data).nmi =
      ["200", "NMI1", "E1", "E1", "E1", "", "S1", "KWH", "05"].getD 1 "" ∧
    (⟨"NMI1", [], some "S1", "KWH", 5⟩ : NEM12Data).meter_serial =
      (if ["200", "NMI1", "E1", "E1", "E1", "", "S1", "KWH", "05"].getD 6 "" = "" then none
        else some (["200", "NMI1", "E1", "E1", "E1", "", "S1", "KWH", "05"].getD 6 "")) ∧
    (⟨"NMI1", [], some "S1", "KWH", 5⟩ : NEM12Data).unit =
      (if ["200", "NMI1", "E1", "E1", "E1", "", "S1", "KWH", "05"].getD 7 "" = "" then "KWH"
        else ["200", "NMI1", "E1", "E1", "E1", "", "S1", "KWH", "05"].getD 7 "") ∧
    (⟨"NMI1", [], some "S1", "KWH", 5⟩ : NEM12Data).interval_length =
      parseIntervalLength (["200", "NMI1", "E1", "E1", "E1", "", "S1", "KWH", "05"].getD 8 "") :=
  C2_last_200_wins [] ["200", "NMI1", "E1", "E1", "E1", "", "S1", "KWH", "05"] []
    ⟨"NMI1", [], some "S1", "KWH", 5⟩ rfl (by decide) (by simp) rfl

end ParserProofs

section ParserProofsB

open NEM12

/-- Helper: reading construction succeeds exactly on in-range inputs. -/
theorem mkIntervalReading_ok (d q : String) (val : ℚ) (i : ℤ)
    (h0 : 0 ≤ i) (h287 : i ≤ 287) (hq : q ∈ qualityFlags) :
    mkIntervalReading d i val q = .ok ⟨d, i, val, q⟩ := by
  unfold mkIntervalReading
  rw [if_neg (not_not_intro ⟨h0, h287⟩), if_neg (not_not_intro hq)]

/-- Helper: the per-value loop succeeds when every value parses, the quality
flag is valid, and the slot indices stay below 288. -/
theorem buildReadings_ok_of_valid (n : ℕ) (d q : String) (hq : q ∈ qualityFlags) :
    ∀ (vals : List String) (i : ℕ), (∀ v ∈ vals, (parseValue v).isSome = true) →
      i + vals.length ≤ 288 → ∃ rs, buildReadings n d q vals i = .ok rs := by
  intro vals
  induction vals with
  | nil => exact fun i _ _ => ⟨[], rfl⟩
  | cons v rest ih =>
    intro i hv hle
    obtain ⟨val, hval⟩ := Option.isSome_iff_exists.mp (hv v (List.mem_cons_self v rest))
    simp only [List.length_cons] at hle
    obtain ⟨rs, hrs⟩ := ih (i + 1) (fun x hx => hv x (List.mem_cons_of_mem v hx)) (by omega)
    have hmk := mkIntervalReading_ok d q val (i : ℤ) (by omega) (by omega) hq
    exact ⟨⟨d, (i : ℤ), val, q⟩ :: rs, by simp only [buildReadings, hval, hmk, hrs]⟩

/-- Helper: a well-formed `300` record is processed without error and leaves
the identity field untouched. -/
theorem process300_ok_of_good (n : ℕ) (fields : List String) (s : PState)
    (hg : good300 fields = true) :
    ∃ s2, process300 n fields s = .ok s2 ∧ s2.nmi = s.nmi := by
  simp only [good300, Bool.and_eq_true, decide_eq_true_eq, List.all_eq_true] at hg
  obtain ⟨⟨⟨h1, h2⟩, h3⟩, h4⟩ := hg
  unfold process300
  rw [if_neg (by omega : ¬ fields.length < 291)]
  simp only []
  rw [if_neg (not_not_intro h2)]
  rw [if_pos (by omega : 290 < fields.length)]
  obtain ⟨rs, hrs⟩ := buildReadings_ok_of_valid n (fields.getD 1 "") (fields.getD 290 "") h4
    ((fields.drop 2).take 288) 0 h3
    (by simp [List.length_take])
  rw [hrs]
  exact ⟨_, rfl, rfl⟩

/-- Helper: a payload containing no `200` record, whose `300` records are all
well formed, runs the record loop to completion without setting the
identity. -/
theorem parseFold_ok_all (lines : List (List String)) :
    ∀ (n : ℕ) (s : PState), (∀ l ∈ lines, l.headD "" ≠ "200") →
      (∀ l ∈ lines, l.headD "" = "300" → good300 l = true) →
      ∃ s2, parseFold n s lines = .ok s2 ∧ s2.nmi = s.nmi := by
  induction lines with
  | nil => exact fun n s _ _ => ⟨s, rfl, rfl⟩
  | cons l rest ih =>
    intro n s hne h3
    have hl : ∃ s3, processLine n l s = .ok s3 ∧ s3.nmi = s.nmi := by
      unfold processLine
      rw [if_neg (hne l (List.mem_cons_self l rest))]
      by_cases hh : l.headD "" = "300"
      · rw [if_pos hh]
        exact process300_ok_of_good n l s (h3 l (List.mem_cons_self l rest) hh)
      · rw [if_neg hh]
        exact ⟨s, rfl, rfl⟩
    obtain ⟨s3, hs3, hnmi3⟩ := hl
    obtain ⟨s2, hs2, hnmi2⟩ := ih (n + 1) s3
      (fun x hx => hne x (List.mem_cons_of_mem l hx))
      (fun x hx => h3 x (List.mem_cons_of_mem l hx))
    exact ⟨s2, by simp only [parseFold, hs3, hs2], hnmi2.trans hnmi3⟩

/-- C5: a payload in which no record has type code `"200"` — however many
well-formed `300` records or other (ignored) records it contains — fails
with the missing-identity `NEM12ParseError`. -/
theorem C5_missing_identity (lines : List (List String))
    (hne : ∀ l ∈ lines, l.headD "" ≠ "200")
    (h3 : ∀ l ∈ lines, l.headD "" = "300" → good300 l = true) :
    parse_nem12_records lines = .error (.parseError "No 200 record found - missing NMI") := by
  obtain ⟨s2, hs2, hnmi⟩ := parseFold_ok_all lines 1 initState hne h3
  have hnone : s2.nmi = none := by rw [hnmi]; rfl
  simp only [parse_nem12_records, hs2, hnone]

set_option maxRecDepth 100000 in
/-- C5 witness: a payload consisting of one well-formed `300` record. -/
theorem C5_missing_identity_witness :
    parse_nem12_records ["300" :: "20240101" :: (List.replicate 288 "" ++ ["A"])] =
      .error (.parseError "No 200 record found - missing NMI") :=
  C5_missing_identity ["300" :: "20240101" :: (List.replicate 288 "" ++ ["A"])]
    (by decide) (by decide)

/-- Helper: processing a `300` record with too few fields or a malformed date
always raises a `NEM12ParseError`, whatever the current state. -/
theorem bad300_processLine_errors (n : ℕ) (s : PState) (l : List String)
    (hh : l.headD "" = "300")
    (hbad : l.length < 291 ∨ validDate (l.getD 1 "") = false) :
    ∃ m, processLine n l s = .error (.parseError m) := by
  unfold processLine
  rw [if_neg (fun hc => absurd (hh.symm.trans hc) (by decide)), if_pos hh]
  unfold process300
  by_cases hl : l.length < 291
  · rw [if_pos hl]
    exact ⟨_, rfl⟩
  · rw [if_neg hl]
    have hdf : validDate (l.getD 1 "") = false := hbad.resolve_left hl
    simp only []
    rw [if_pos (show ¬ validDate (l.getD 1 "") = true by rw [hdf]; simp)]
    exact ⟨_, rfl⟩

/-- Helper: the record loop aborts with an error whenever the payload
contains a malformed `300` record. -/
theorem parseFold_error_of_bad (lines : List (List String)) :
    ∀ (n : ℕ) (s : PState),
      (∃ l ∈ lines, l.headD "" = "300" ∧
        (l.length < 291 ∨ validDate (l.getD 1 "") = false)) →
      ∃ e, parseFold n s lines = .error e := by
  induction lines with
  | nil =>
    rintro n s ⟨l, hl, -⟩
    exact absurd hl (List.not_mem_nil l)
  | cons l0 rest ih =>
    rintro n s ⟨l, hl, hh, hbad⟩
    cases hpl : processLine n l0 s with
    | error e => exact ⟨e, by simp only [parseFold, hpl]⟩
    | ok s3 =>
      rcases List.mem_cons.mp hl with rfl | hmem
      · obtain ⟨m, hm⟩ := bad300_processLine_errors n s l hh hbad
        rw [hpl] at hm
        cases hm
      · obtain ⟨e, he⟩ := ih (n + 1) s3 ⟨l, hmem, hh, hbad⟩
        exact ⟨e, by simp only [parseFold, hpl, he]⟩

set_option maxRecDepth 100000 in
/-- C4 counterexample: a payload containing a `300` record with fewer than
291 fields can fail with a `ValueError` (raised by an earlier record's
quality validation), not with a `NEM12ParseError` — so "fails with a
DecodeError" does not hold of every such payload. -/
theorem C4_decode_error_counterexample :
    parse_nem12_records
        [["200", "NMI1", "E1", "E1", "E1", "", "S1", "KWH", "05"],
         "300" :: "20240101" :: (List.replicate 288 "" ++ ["X"]),
         ["300", "20240102", "1"]] =
      .error (.valueError "Unknown quality flag: X") ∧
    ∀ m, parse_nem12_records
        [["200", "NMI1", "E1", "E1", "E1", "", "S1", "KWH", "05"],
         "300" :: "20240101" :: (List.replicate 288 "" ++ ["X"]),
         ["300", "20240102", "1"]] ≠
      .error (.parseError m) := by
  constructor
  · rfl
  · intro m hm
    rw [show parse_nem12_records
        [["200", "NMI1", "E1", "E1", "E1", "", "S1", "KWH", "05"],
         "300" :: "20240101" :: (List.replicate 288 "" ++ ["X"]),
         ["300", "20240102", "1"]] =
      .error (.valueError "Unknown quality flag: X") from rfl] at hm
    injection hm with hm2
    cases hm2

/-- C4 (amended): a payload in which some `300` record has fewer than 291
fields or a non-8-digit date always fails — with the `NEM12ParseError`
raised by that record itself, unless an earlier record already raises a
different error (such as a quality-validation `ValueError`) — and never
produces a dataset. The malformed `300` record, when it is the one
processed, always raises a `NEM12ParseError`. -/
theorem C4_bad_300_fails :
    (∀ lines : List (List String),
      (∃ l ∈ lines, l.headD "" = "300" ∧
        (l.length < 291 ∨ validDate (l.getD 1 "") = false)) →
      ∃ e, parse_nem12_records lines = .error e) ∧
    (∀ (n : ℕ) (s : PState) (l : List String), l.headD "" = "300" →
      (l.length < 291 ∨ validDate (l.getD 1 "") = false) →
      ∃ m, processLine n l s = .error (.parseError m)) := by
  constructor
  · intro lines hex
    obtain ⟨e, he⟩ := parseFold_error_of_bad lines 1 initState hex
    exact ⟨e, by simp only [parse_nem12_records, he]⟩
  · exact fun n s l hh hbad => bad300_processLine_errors n s l hh hbad

/-- C4 witness: a two-field `300` record aborts the decode. -/
theorem C4_bad_300_fails_witness :
    (∃ e, parse_nem12_records [["300", "20240101"]] = .error e) ∧
    (∃ m, processLine 1 ["300", "20240101"] NEM12.initState = .error (.parseError m)) :=
  ⟨C4_bad_300_fails.1 [["300", "20240101"]]
      ⟨["300", "20240101"], List.mem_cons_self _ _, rfl, Or.inl (by decide)⟩,
   C4_bad_300_fails.2 1 NEM12.initState ["300", "20240101"] rfl (Or.inl (by decide))⟩

end ParserProofsB

section ParserProofsC

open NEM12

set_option maxRecDepth 200000

/-- Helper: the per-value loop on `k` copies of one parseable value string
produces the `k` readings with consecutive slot indices. -/
theorem buildReadings_replicate (n : ℕ) (d q s : String) (v : ℚ)
    (hq : q ∈ qualityFlags) (hs : parseValue s = some v) :
    ∀ (k i : ℕ), i + k ≤ 288 →
      buildReadings n d q (List.replicate k s) i =
        .ok ((List.range k).map (fun j => ⟨d, ((i + j : ℕ) : ℤ), v, q⟩)) := by
  intro k
  induction k with
  | zero => intro i _; simp [buildReadings]
  | succ k ih =>
    intro i hle
    have hmk := mkIntervalReading_ok d q v (i : ℤ) (by omega) (by omega) hq
    have hrec := ih (i + 1) (by omega)
    have hlist : (⟨d, (i : ℤ), v, q⟩ : IntervalReading) ::
        (List.range k).map (fun j : ℕ => (⟨d, ((i + 1 + j : ℕ) : ℤ), v, q⟩ : IntervalReading)) =
        (List.range (k + 1)).map
          (fun j : ℕ => (⟨d, ((i + j : ℕ) : ℤ), v, q⟩ : IntervalReading)) := by
      rw [List.range_succ_eq_map, List.map_cons, List.map_map]
      refine congrArg₂ List.cons (by simp) (List.map_congr_left (fun a _ => ?_))
      simp only [Function.comp_apply, Nat.succ_eq_add_one]
      rw [show i + 1 + a = i + (a + 1) from by omega]
    simp only [List.replicate_succ, buildReadings, hs, hmk, hrec, hlist]

/-- Helper: a synthetic `300` record of 288 copies of one parseable value
with a valid date and quality decodes to the 288 readings, appended to the
state. -/
theorem process300_single (n : ℕ) (d q s : String) (v : ℚ) (st : PState)
    (hd : validDate d = true) (hq : q ∈ qualityFlags) (hs : parseValue s = some v) :
    process300 n ("300" :: d :: (List.replicate 288 s ++ [q])) st =
      .ok { st with readings := st.readings ++
        (List.range 288).map (fun j : ℕ => ⟨d, (j : ℤ), v, q⟩) } := by
  have hbuild := buildReadings_replicate n d q s v hq hs 288 0 (by omega)
  have hmap : (List.range 288).map
        (fun j : ℕ => (⟨d, ((0 + j : ℕ) : ℤ), v, q⟩ : IntervalReading)) =
      (List.range 288).map (fun j : ℕ => (⟨d, (j : ℤ), v, q⟩ : IntervalReading)) :=
    List.map_congr_left (fun a _ => by simp)
  rw [hmap] at hbuild
  have h1 : ("300" :: d :: (List.replicate 288 s ++ [q])).getD 1 "" = d := rfl
  have h290 : ("300" :: d :: (List.replicate 288 s ++ [q])).getD 290 "" = q := by
    rw [List.getD_eq_getElem?_getD, show (290 : ℕ) = 289 + 1 from rfl,
      List.getElem?_cons_succ, show (289 : ℕ) = 288 + 1 from rfl, List.getElem?_cons_succ,
      List.getElem?_append_right (by simp)]
    simp
  have htake : (("300" :: d :: (List.replicate 288 s ++ [q])).drop 2).take 288 =
      List.replicate 288 s := by
    show (List.replicate 288 s ++ [q]).take 288 = List.replicate 288 s
    conv_lhs => rw [show (288 : ℕ) = (List.replicate 288 s).length by simp]
    exact List.take_left _ _
  unfold process300
  rw [if_neg (show ¬ ("300" :: d :: (List.replicate 288 s ++ [q])).length < 291 by
    simp)]
  simp only []
  rw [if_neg (not_not_intro
    (show validDate (("300" :: d :: (List.replicate 288 s ++ [q])).getD 1 "") = true from hd))]
  rw [if_pos (show 290 < ("300" :: d :: (List.replicate 288 s ++ [q])).length by simp)]
  rw [h1, h290, htake]
  simp only [hbuild]

/-- C3: decoding a payload of one valid `200` record followed by one `300`
record carrying a date `d`, 288 copies of a parseable value `v` and a quality
flag `q` yields exactly 288 readings, the reading at slot `i` having date
`d`, interval `i`, value `v` and quality `q`, and the daily total for `d`
equals `288 * v`. -/
theorem C3_single_300_roundtrip (r200 : List String) (d q s : String) (v : ℚ)
    (h200 : r200.headD "" = "200") (hlen : 9 ≤ r200.length)
    (hd : validDate d = true) (hq : q ∈ qualityFlags) (hs : parseValue s = some v) :
    ∃ data,
      parse_nem12_records [r200, "300" :: d :: (List.replicate 288 s ++ [q])] = .ok data ∧
      data.readings.length = 288 ∧
      (∀ i : ℕ, i < 288 → data.readings[i]? = some ⟨d, (i : ℤ), v, q⟩) ∧
      get_daily_total data.readings d = 288 * v := by
  have hpl1 : ∀ st : PState, processLine 1 r200 st = .ok { st with
      nmi := some (r200.getD 1 ""),
      meter_serial := if r200.getD 6 "" = "" then none else some (r200.getD 6 ""),
      unit := if r200.getD 7 "" = "" then "KWH" else r200.getD 7 "",
      interval_length := parseIntervalLength (r200.getD 8 "") } := by
    intro st
    unfold processLine
    rw [if_pos h200]
    exact process200_ok 1 r200 st hlen
  have hpl2 : ∀ st : PState,
      processLine 2 ("300" :: d :: (List.replicate 288 s ++ [q])) st =
        .ok { st with readings := st.readings ++
          (List.range 288).map (fun j : ℕ => ⟨d, (j : ℤ), v, q⟩) } := by
    intro st
    unfold processLine
    rw [if_neg (show ¬ ("300" :: d :: (List.replicate 288 s ++ [q])).headD "" = "200" from
        fun hc => absurd (show ("300" : String) = "200" from hc) (by decide)),
      if_pos (show ("300" :: d :: (List.replicate 288 s ++ [q])).headD "" = "300" from rfl)]
    exact process300_single 2 d q s v st hd hq hs
  refine ⟨⟨r200.getD 1 "", (List.range 288).map (fun j : ℕ => ⟨d, (j : ℤ), v, q⟩),
    if r200.getD 6 "" = "" then none else some (r200.getD 6 ""),
    if r200.getD 7 "" = "" then "KWH" else r200.getD 7 "",
    parseIntervalLength (r200.getD 8 "")⟩, ?_, ?_, ?_, ?_⟩
  · simp only [parse_nem12_records, parseFold, hpl1, hpl2, initState, List.nil_append]
  · simp
  · intro i hi
    rw [List.getElem?_map, List.getElem?_range hi]
    rfl
  · simp only [get_daily_total]
    rw [List.filter_eq_self.mpr (by
      intro a ha
      rcases List.mem_map.mp ha with ⟨j, -, rfl⟩
      simp)]
    rw [List.map_map]
    simp only [Function.comp_def]
    rw [List.map_const', List.length_range, List.sum_replicate, nsmul_eq_mul]
    norm_num

set_option maxRecDepth 100000 in
/-- C3 witness: the concrete synthetic payload with value `0` (empty value
strings) and quality `A`. -/
theorem C3_single_300_roundtrip_witness :
    ∃ data,
      parse_nem12_records
          [["200", "NMI1", "E1", "E1", "E1", "", "S1", "KWH", "05"],
           "300" :: "20240101" :: (List.replicate 288 "" ++ ["A"])] = .ok data ∧
      data.readings.length = 288 ∧
      (∀ i : ℕ, i < 288 → data.readings[i]? = some ⟨"20240101", (i : ℤ), 0, "A"⟩) ∧
      get_daily_total data.readings "20240101" = 288 * 0 :=
  C3_single_300_roundtrip ["200", "NMI1", "E1", "E1", "E1", "", "S1", "KWH", "05"]
    "20240101" "A" "" 0 rfl (by decide) (by decide) (by decide) rfl

end ParserProofsC

section ParserProofsD

open NEM12

/-- Helper: a successfully constructed reading satisfies the interval bounds
and carries a known quality flag. -/
theorem mkIntervalReading_ok_inv (d q : String) (val : ℚ) (i : ℤ) (r : IntervalReading)
    (h : mkIntervalReading d i val q = .ok r) :
    0 ≤ r.interval ∧ r.interval ≤ 287 ∧ r.quality ∈ qualityFlags := by
  unfold mkIntervalReading at h
  by_cases h1 : ¬ (0 ≤ i ∧ i ≤ 287)
  · rw [if_pos h1] at h; cases h
  · rw [if_neg h1] at h
    by_cases h2 : q ∉ qualityFlags
    · rw [if_pos h2] at h; cases h
    · rw [if_neg h2] at h
      cases h
      obtain ⟨a, b⟩ := not_not.mp h1
      exact ⟨a, b, not_not.mp h2⟩

/-- Helper: every reading produced by the per-value loop satisfies the
constructor invariants. -/
theorem buildReadings_inv (n : ℕ) (d q : String) :
    ∀ (vals : List String) (i : ℕ) (rs : List IntervalReading),
      buildReadings n d q vals i = .ok rs →
      ∀ r ∈ rs, 0 ≤ r.interval ∧ r.interval ≤ 287 ∧ r.quality ∈ qualityFlags := by
  intro vals
  induction vals with
  | nil =>
    intro i rs h r hr
    cases h
    exact absurd hr (List.not_mem_nil r)
  | cons v rest ih =>
    intro i rs h r hr
    unfold buildReadings at h
    cases hv : parseValue v with
    | none => rw [hv] at h; cases h
    | some val =>
      simp only [hv] at h
      cases hmk : mkIntervalReading d (i : ℤ) val q with
      | error e => simp only [hmk] at h; cases h
      | ok r0 =>
        simp only [hmk] at h
        cases hrec : buildReadings n d q rest (i + 1) with
        | error e => simp only [hrec] at h; cases h
        | ok rs0 =>
          simp only [hrec] at h
          cases h
          rcases List.mem_cons.mp hr with rfl | hmem
          · exact mkIntervalReading_ok_inv d q val (i : ℤ) r hmk
          · exact ih (i + 1) rs0 hrec r hmem

/-- Helper: processing one record preserves the reading invariants. -/
theorem processLine_inv (n : ℕ) (l : List String) (st st2 : PState)
    (h : processLine n l st = .ok st2)
    (hprev : ∀ r ∈ st.readings, 0 ≤ r.interval ∧ r.interval ≤ 287 ∧ r.quality ∈ qualityFlags) :
    ∀ r ∈ st2.readings, 0 ≤ r.interval ∧ r.interval ≤ 287 ∧ r.quality ∈ qualityFlags := by
  unfold processLine at h
  by_cases h2 : l.headD "" = "200"
  · rw [if_pos h2] at h
    unfold process200 at h
    by_cases hl : l.length < 9
    · rw [if_pos hl] at h; cases h
    · rw [if_neg hl] at h
      cases h
      exact hprev
  · rw [if_neg h2] at h
    by_cases h3 : l.headD "" = "300"
    · rw [if_pos h3] at h
      unfold process300 at h
      by_cases hl : l.length < 291
      · rw [if_pos hl] at h; cases h
      · rw [if_neg hl] at h
        simp only [] at h
        by_cases hdv : ¬ validDate (l.getD 1 "") = true
        · rw [if_pos hdv] at h; cases h
        · rw [if_neg hdv] at h
          cases hb : buildReadings n (l.getD 1 "")
              (if 290 < l.length then l.getD 290 "" else "A")
              (List.take 288 (List.drop 2 l)) 0 with
          | error e => rw [hb] at h; cases h
          | ok rs =>
            rw [hb] at h
            cases h
            intro r hr
            rcases List.mem_append.mp hr with hmem | hmem
            · exact hprev r hmem
            · exact buildReadings_inv n (l.getD 1 "") _ _ 0 rs hb r hmem
    · rw [if_neg h3] at h
      cases h
      exact hprev

/-- Helper: the record loop preserves the reading invariants. -/
theorem parseFold_inv (lines : List (List String)) :
    ∀ (n : ℕ) (st st2 : PState), parseFold n st lines = .ok st2 →
      (∀ r ∈ st.readings, 0 ≤ r.interval ∧ r.interval ≤ 287 ∧ r.quality ∈ qualityFlags) →
      ∀ r ∈ st2.readings, 0 ≤ r.interval ∧ r.interval ≤ 287 ∧ r.quality ∈ qualityFlags := by
  induction lines with
  | nil =>
    intro n st st2 h hprev
    cases h
    exact hprev
  | cons l rest ih =>
    intro n st st2 h hprev
    cases hpl : processLine n l st with
    | error e => simp only [parseFold, hpl] at h; cases h
    | ok s3 =>
      simp only [parseFold, hpl] at h
      exact ih (n + 1) s3 st2 h (processLine_inv n l st s3 hpl hprev)

/-- C10: every reading in any dataset returned by the decoder satisfies
`0 ≤ interval ≤ 287` and a quality flag in `{A,V,E,S,N,F}` (enforced by the
constructor validation); and a structurally well-formed `300` record whose
quality field (field 290) lies outside that set — the empty string
included — makes decoding raise the quality-validation `ValueError` (not a
`NEM12ParseError`, and no reading is emitted with a defaulted quality). -/
theorem C10_reading_validation :
    (∀ (lines : List (List String)) (data : NEM12Data),
      parse_nem12_records lines = .ok data →
      ∀ r ∈ data.readings, 0 ≤ r.interval ∧ r.interval ≤ 287 ∧ r.quality ∈ qualityFlags) ∧
    (∀ (n : ℕ) (st : PState) (fields : List String),
      291 ≤ fields.length → validDate (fields.getD 1 "") = true →
      (parseValue (fields.getD 2 "")).isSome = true →
      fields.getD 290 "" ∉ qualityFlags →
      process300 n fields st =
        .error (.valueError ("Unknown quality flag: " ++ fields.getD 290 ""))) := by
  constructor
  · intro lines data hp r hr
    unfold parse_nem12_records at hp
    cases hf : parseFold 1 initState lines with
    | error e => rw [hf] at hp; cases hp
    | ok sf =>
      rw [hf] at hp
      have hp2 : (match sf.nmi with
          | none => Except.error (ParseErr.parseError "No 200 record found - missing NMI")
          | some nm =>
            Except.ok
              (⟨nm, sf.readings, sf.meter_serial, sf.unit, sf.interval_length⟩ : NEM12Data)) =
          Except.ok data := hp
      cases hn : sf.nmi with
      | none => rw [hn] at hp2; cases hp2
      | some nm =>
        rw [hn] at hp2
        cases hp2
        exact parseFold_inv lines 1 initState sf hf
          (fun r2 hr2 => absurd hr2 (List.not_mem_nil r2)) r hr
  · intro n st fields h291 hvd hfirst hqbad
    rcases fields with - | ⟨f0, - | ⟨f1, - | ⟨f2, rest⟩⟩⟩
    · simp at h291
    · simp at h291
    · simp at h291
    unfold process300
    rw [if_neg (show ¬ (f0 :: f1 :: f2 :: rest).length < 291 by
      simp only [List.length_cons] at h291 ⊢; omega)]
    simp only []
    rw [if_neg (not_not_intro hvd)]
    rw [if_pos (show 290 < (f0 :: f1 :: f2 :: rest).length by
      simp only [List.length_cons] at h291 ⊢; omega)]
    have hvals : ((f0 :: f1 :: f2 :: rest).drop 2).take 288 = f2 :: List.take 287 rest := by
      show (f2 :: rest).take 288 = f2 :: rest.take 287
      rw [show (288 : ℕ) = 287 + 1 from rfl, List.take_succ_cons]
    rw [hvals]
    obtain ⟨val, hval⟩ := Option.isSome_iff_exists.mp hfirst
    have hval2 : parseValue f2 = some val := hval
    have hbuild : buildReadings n ((f0 :: f1 :: f2 :: rest).getD 1 "")
        ((f0 :: f1 :: f2 :: rest).getD 290 "") (f2 :: List.take 287 rest) 0 =
        .error (.valueError ("Unknown quality flag: " ++ (f0 :: f1 :: f2 :: rest).getD 290 "")) := by
      unfold buildReadings
      simp only [hval2]
      unfold mkIntervalReading
      rw [if_neg (not_not_intro ⟨by simp, by norm_num⟩)]
      rw [if_pos hqbad]
    rw [hbuild]

end ParserProofsD

section ParserProofsE

open NEM12

set_option maxRecDepth 200000 in
/-- C10 witness: a decoded dataset whose readings all validate, and a
well-formed `300` record with quality `"X"` rejected by the validator. -/
theorem C10_reading_validation_witness :
    (∀ r ∈ (⟨"NMI1", [], some "S1", "KWH", 5⟩ : NEM12Data).readings,
      0 ≤ r.interval ∧ r.interval ≤ 287 ∧ r.quality ∈ qualityFlags) ∧
    process300 1 ("300" :: "20240101" :: (List.replicate 288 "" ++ ["X"])) NEM12.initState =
      .error (.valueError ("Unknown quality flag: " ++
        ("300" :: "20240101" :: (List.replicate 288 "" ++ ["X"])).getD 290 "")) :=
  ⟨C10_reading_validation.1 [["200", "NMI1", "E1", "E1", "E1", "", "S1", "KWH", "05"]]
      ⟨"NMI1", [], some "S1", "KWH", 5⟩ rfl,
   C10_reading_validation.2 1 NEM12.initState
      ("300" :: "20240101" :: (List.replicate 288 "" ++ ["X"]))
      (by decide) (by decide) rfl (by decide)⟩

end ParserProofsE
